import Mathlib

/-!
Shallow embedding of the evolutionary bassline generator (`genetic.ino`).

The source is an Arduino sketch.  The parts embedded here are the pure
algorithmic core named by the specification: the genome data model, the
jazz-table fitness function `evaluateGenome`, the population operations
`initPopulation` / `mutatePopulation` / `evaluatePopulation`, the tempo
computation from the analog reading, and the end-of-sequence wrap handler
of `loop` that consumes the latched like/dislike flags.

Modelling conventions:
* `byte` fields are modelled as `Nat`; every value the program stores in
  them is in `[0, 256)` so no truncation is needed, except in the
  `JAZZ_TABLE` literal, where the source writes the negative constants
  `-5` and `-10` into a `const byte` array.  That conversion is made
  explicit through `byteOf` (reduction of the `int` value mod 256).
* `JAZZ_TABLE[ct][sd]` in C is a row-major offset read from the
  contiguous 7x7 byte object.  The program computes `sd` in `[0, 12)`,
  so the read can leave the addressed row; `jazzAt` reproduces the
  row-major address arithmetic over the flattened table.
* Arduino `random(n)` returns a value in `[0, n)`.  Randomness is
  modelled by an explicit stream of naturals; `draw` consumes the head
  reduced mod `n` (an exhausted stream yields `0`).  Quantifying over
  streams quantifies over all possible random sequences.
* The scoring arithmetic of `evaluateGenome` is done in C `int`.  For
  the in-domain genomes all intermediate values stay far inside 16-bit
  range (the total lies in `[-3840, 16064]`), so unbounded `Int` is an
  exact model.
-/

/-- One step of a genome: the per-step fields of the parallel `byte`
arrays `note`, `octave`, `waveform`, `gate` of `struct Genome`. -/
structure StepGene where
  note : Nat
  octave : Nat
  waveform : Nat
  gate : Nat
deriving DecidableEq

/-- A genome: the 64 steps in order (NUM_STEPS = 64). -/
abbrev Genome := List StepGene

/-- The all-zero gene; C zero-initialisation of a `Genome` global. -/
def zeroGene : StepGene := ⟨0, 0, 0, 0⟩

/-- The zero-initialised genome (the initial value of `best_genome`). -/
def zeroGenome : Genome := List.replicate 64 zeroGene

/-- `genome.note[i]` etc.; reading a field of step `i`.  Indices used by
the program are always `< 64`; the default is never reached on 64-step
genomes. -/
def geneAt (g : Genome) (i : Nat) : StepGene := g.getD i zeroGene

/-- Field domains of a gene: note in [0,12), octave in [0,4),
waveform in [0,4), gate in {0,1}. -/
def geneInDomain (s : StepGene) : Bool :=
  decide (s.note < 12) && decide (s.octave < 4) &&
    decide (s.waveform < 4) && decide (s.gate < 2)

/-- Every gene of the genome is inside its field domains. -/
def genomeInDomain (g : Genome) : Bool := g.all geneInDomain

/-- The `JAZZ_TABLE` initialiser exactly as written in the source:
7 rows (chord types), 7 columns (scale degrees), as signed integers. -/
def JAZZ_TABLE_src : List (List Int) :=
  [[10, 0, 7, 0, 5, 0, 3],
   [10, 0, 5, 0, 7, 0, 3],
   [10, 0, 7, 0, 5, -5, -10],
   [10, -5, -10, -5, -10, -5, -10],
   [10, -5, -10, -5, -10, -5, -10],
   [10, -5, -10, -5, -10, -5, -10],
   [10, -5, -10, -5, -10, -5, -10]]

/-- Conversion of a C `int` value to `byte` (`uint8_t`): reduction
modulo 256.  `-5` becomes `251`, `-10` becomes `246`. -/
def byteOf (x : Int) : Nat := (x % 256).toNat

/-- `const byte JAZZ_TABLE[7][7]` as stored: each initialiser narrowed
to `byte`. -/
def JAZZ_TABLE : List (List Nat) := JAZZ_TABLE_src.map (List.map byteOf)

/-- The 7x7 byte object laid out row-major, as it sits in memory. -/
def JAZZ_FLAT : List Nat := JAZZ_TABLE.flatten

/-- The read `JAZZ_TABLE[ct][sd]`: row-major address arithmetic
`base + ct*7 + sd` over the flattened object.  For `sd < 7` this is the
cell of row `ct`; for `7 <= sd < 12` (which the program does produce)
the read continues into the following row. -/
def jazzAt (ct sd : Nat) : Nat := JAZZ_FLAT.getD (ct * 7 + sd) 0

/-- Bounds-checked indexing of the declared 7x7 table: `none` exactly
when the index pair leaves the declared bounds. -/
def jazzChecked (ct sd : Nat) : Option Nat :=
  if ct < 7 ∧ sd < 7 then some (jazzAt ct sd) else none

/-- `CHORD_PROGRESSION`: (chord type, root) per 16-step segment. -/
def CHORD_PROGRESSION : List (Nat × Nat) := [(0, 0), (1, 9), (2, 7), (1, 2)]

/-- `CHORD_PROGRESSION[i / (NUM_STEPS / 4)][0]`; `NUM_STEPS / 4 = 16`. -/
def chordType (i : Nat) : Nat := (CHORD_PROGRESSION.getD (i / 16) (0, 0)).fst

/-- `CHORD_PROGRESSION[i / (NUM_STEPS / 4)][1]`. -/
def chordRoot (i : Nat) : Nat := (CHORD_PROGRESSION.getD (i / 16) (0, 0)).snd

/-- `(note - chord_root + NUM_NOTES) % NUM_NOTES` in C `int` arithmetic.
For every `byte` note and every root of `CHORD_PROGRESSION` (all `< 12`)
the `int` value `note - root + 12` is nonnegative, so C `%` agrees with
the natural-number `%` used here and the `Nat` subtraction is exact. -/
def scaleDegree (note root : Nat) : Nat := (note + 12 - root) % 12

/-- The scale degree computed by `evaluateGenome` at step `i`. -/
def stepDegree (g : Genome) (i : Nat) : Nat :=
  scaleDegree (geneAt g i).note (chordRoot i)

/-- The contribution of step `i` to the score accumulated by
`evaluateGenome`: the jazz-table read, the octave and waveform
centering penalties, and for `i > 0` the interval penalty plus the
static-repetition penalty. -/
def stepScore (g : Genome) (i : Nat) : Int :=
  let s := geneAt g i
  let base : Int := (jazzAt (chordType i) (stepDegree g i) : Int)
      - ((s.octave : Int) - 1).natAbs * 2 - ((s.waveform : Int) - 1).natAbs * 2
  if i = 0 then base
  else
    let p := geneAt g (i - 1)
    let interval : Int :=
      (s.note : Int) + (s.octave : Int) * 12 - (p.note : Int) - (p.octave : Int) * 12
    base - interval.natAbs - (if interval = 0 ∧ s.gate = 1 ∧ p.gate = 1 then 5 else 0)

/-- `evaluateGenome`: the score accumulated over the 64 steps. -/
def evaluateGenome (g : Genome) : Int :=
  (List.range 64).foldl (fun acc i => acc + stepScore g i) 0

/-- Reference table cell per spec section 4.2: the `JazzFitnessTable`
cell as the signed integer preference listed in the source table.  The
spec's 7-wide table leaves degrees beyond column 6 without a value;
those lookups return 0 here and are not exercised by any comparison
below. -/
def specCell (ct sd : Nat) : Int := (JAZZ_TABLE_src.getD ct []).getD sd 0

/-- Reference per-step contribution following the words of spec
section 4.2 (same structure as `stepScore`, signed table cells). -/
def specStepScore (g : Genome) (i : Nat) : Int :=
  let s := geneAt g i
  let base : Int := specCell (chordType i) (stepDegree g i)
      - ((s.octave : Int) - 1).natAbs * 2 - ((s.waveform : Int) - 1).natAbs * 2
  if i = 0 then base
  else
    let p := geneAt g (i - 1)
    let interval : Int :=
      (s.note : Int) + (s.octave : Int) * 12 - (p.note : Int) - (p.octave : Int) * 12
    base - interval.natAbs - (if interval = 0 ∧ s.gate = 1 ∧ p.gate = 1 then 5 else 0)

/-- Reference sum of spec section 4.2 over the 64 steps. -/
def specScore (g : Genome) : Int :=
  (List.range 64).foldl (fun acc i => acc + specStepScore g i) 0

/-! ### Random streams and the population operations -/

/-- A stream of raw pseudo-random values. -/
abbrev Rng := List Nat

/-- Arduino `random(n)`: a value in `[0, n)`; the raw head of the
stream reduced mod `n`.  An exhausted stream yields `0`. -/
def draw (r : Rng) (n : Nat) : Nat × Rng := (r.headD 0 % n, r.tail)

/-- One gene of `initPopulation`'s inner loop: fresh draws
`random(12)`, `random(4)`, `random(4)`, `random(2)` in program order. -/
def initGene (r : Rng) : StepGene × Rng :=
  let a := draw r 12
  let b := draw a.snd 4
  let c := draw b.snd 4
  let d := draw c.snd 2
  (⟨a.fst, b.fst, c.fst, d.fst⟩, d.snd)

/-- The `j` loop of `initPopulation`: `n` fresh genes in order. -/
def initGenome : Nat → Rng → Genome × Rng
  | 0, r => ([], r)
  | n + 1, r =>
    let p := initGene r
    let q := initGenome n p.snd
    (p.fst :: q.fst, q.snd)

/-- The `i` loop of `initPopulation`: `n` fresh 64-step genomes. -/
def initPopulationAux : Nat → Rng → List Genome × Rng
  | 0, r => ([], r)
  | n + 1, r =>
    let p := initGenome 64 r
    let q := initPopulationAux n p.snd
    (p.fst :: q.fst, q.snd)

/-- `initPopulation`: POP_SIZE = 100 fresh random genomes. -/
def initPopulation (r : Rng) : List Genome × Rng := initPopulationAux 100 r

/-- One field of `mutatePopulation`'s body:
`if (random(100) < MUT_RATE * 100) field = random(bound);`.
The float comparison `random(100) < rate * 100` equals the integer
comparison against `t = rate * 100` for the rates considered (the
configured 0.01 gives `t = 1`; the boundary rates 0 and 1 give
`t = 0` and `t = 100`), so the threshold `t` is the parameter. -/
def mutField (t : Nat) (r : Rng) (b cur : Nat) : Nat × Rng :=
  if (draw r 100).fst < t then draw (draw r 100).snd b else (cur, (draw r 100).snd)

/-- The four per-field Bernoulli trials of one step, in program order:
note, octave, waveform, gate. -/
def mutateGene (t : Nat) (r : Rng) (s : StepGene) : StepGene × Rng :=
  let a := mutField t r 12 s.note
  let b := mutField t a.snd 4 s.octave
  let c := mutField t b.snd 4 s.waveform
  let d := mutField t c.snd 2 s.gate
  (⟨a.fst, b.fst, c.fst, d.fst⟩, d.snd)

/-- The `j` loop of `mutatePopulation` over one genome. -/
def mutateGenome (t : Nat) : Genome → Rng → Genome × Rng
  | [], r => ([], r)
  | s :: rest, r =>
    let p := mutateGene t r s
    let q := mutateGenome t rest p.snd
    (p.fst :: q.fst, q.snd)

/-- `mutatePopulation` with threshold `t = MUT_RATE * 100`. -/
def mutatePopulation (t : Nat) : List Genome → Rng → List Genome × Rng
  | [], r => ([], r)
  | g :: gs, r =>
    let p := mutateGenome t g r
    let q := mutatePopulation t gs p.snd
    (p.fst :: q.fst, q.snd)

/-- The deployed threshold: `MUT_RATE * 100 = 0.01 * 100 = 1`. -/
def MUT_THRESHOLD : Nat := 1

/-- An unconditional field replacement: the trial draw is consumed and
the field becomes a fresh uniform draw from its domain. -/
def freshField (r : Rng) (b : Nat) : Nat × Rng := draw (draw r 100).snd b

/-- A gene whose four fields are all freshly drawn from their domains
(note from [0,12), octave from [0,4), waveform from [0,4),
gate from {0,1}). -/
def replaceGene (r : Rng) : StepGene × Rng :=
  let a := freshField r 12
  let b := freshField a.snd 4
  let c := freshField b.snd 4
  let d := freshField c.snd 2
  (⟨a.fst, b.fst, c.fst, d.fst⟩, d.snd)

/-- Replacement of every field of every gene of one genome. -/
def replaceGenome : Genome → Rng → Genome × Rng
  | [], r => ([], r)
  | _ :: rest, r =>
    let p := replaceGene r
    let q := replaceGenome rest p.snd
    (p.fst :: q.fst, q.snd)

/-- Replacement of every field of every gene of every genome. -/
def replaceAllFields : List Genome → Rng → List Genome × Rng
  | [], r => ([], r)
  | g :: gs, r =>
    let p := replaceGenome g r
    let q := replaceAllFields gs p.snd
    (p.fst :: q.fst, q.snd)

/-! ### Selection -/

/-- The body of `evaluatePopulation`'s loop: keep the incumbent unless
the new genome scores strictly higher. -/
def evalStep (best : Int × Genome) (g : Genome) : Int × Genome :=
  if evaluateGenome g > best.fst then (evaluateGenome g, g) else best

/-- `evaluatePopulation`: scan the population starting from the
sentinel `best_score = -9999` (with the zero-initialised
`best_genome`), returning the final `(best_score, best_genome)`. -/
def evaluatePopulation (pop : List Genome) : Int × Genome :=
  List.foldl evalStep (-9999, zeroGenome) pop

/-! ### Tempo -/

/-- `current_bpm = analogRead(BPM_PIN) / 4 + 60` (C integer division). -/
def bpmFromReading (a : Nat) : Nat := a / 4 + 60

/-- `step_time = 60000 / current_bpm / 4` (C integer division). -/
def stepTimeOf (bpm : Nat) : Nat := 60000 / bpm / 4

/-! ### The wrap handler of `loop` -/

/-- The state consulted when `current_step` wraps to 0: the two latched
flags, the population, the `(best_score, best_genome)` pair and the
random stream. -/
structure SeqState where
  like : Bool
  dislike : Bool
  pop : List Genome
  best : Int × Genome
  rng : Rng

/-- The body of `if (current_step == NUM_STEPS)` in `loop`, run exactly
when the step counter wraps to 0.  The returned pair of flags records
which transition ran: `(reinforce fired, reset fired)`.  The like
branch clears `like_pressed` only; the dislike branch clears
`dislike_pressed` only. -/
def onWrap (s : SeqState) : SeqState × (Bool × Bool) :=
  if s.like then
    let p := mutatePopulation MUT_THRESHOLD s.pop s.rng
    (⟨false, s.dislike, p.fst, evaluatePopulation p.fst, p.snd⟩, (true, false))
  else if s.dislike then
    let p := initPopulation s.rng
    (⟨s.like, false, p.fst, evaluatePopulation p.fst, p.snd⟩, (false, true))
  else (s, (false, false))

/-! ### Concrete inputs used by the counterexamples and witnesses -/

/-- All octave and waveform fields centered at 1, gates closed; note 0
for the first three 16-step segments and note 2 for the last, so every
scale degree the evaluation produces lies in the declared column range
`[0, 7)` of the table. -/
def cexGenomeC1 : Genome :=
  List.replicate 48 ⟨0, 1, 1, 0⟩ ++ List.replicate 16 ⟨2, 1, 1, 0⟩

/-- An in-domain genome holding note 7 at every step: over the first
segment (C major, root 0) its scale degree is 7, beyond the declared
columns of the table. -/
def g7 : Genome := List.replicate 64 ⟨7, 0, 0, 0⟩

/-- A genome scoring 4176, the best value reachable with the stored
(byte) table on segment-constant notes. -/
def eliteGenome : Genome := List.replicate 64 ⟨0, 1, 1, 0⟩

/-- A full population of 100 copies of `eliteGenome`. -/
def elitePop : List Genome := List.replicate 100 eliteGenome

/-- A full population of 100 zero genomes. -/
def popW : List Genome := List.replicate 100 zeroGenome

/-- A wrap state with both feedback flags latched. -/
def sBoth : SeqState := ⟨true, true, [], (-9999, zeroGenome), []⟩

/-- A wrap state with no feedback flag latched. -/
def sNone : SeqState := ⟨false, false, [], (-9999, zeroGenome), []⟩

/-! ### Claim theorems: the fitness function and the table -/

/-- C1: on the in-domain genome `cexGenomeC1` (whose scale degrees all
stay inside the declared table columns, so the spec-side sum is
unambiguous) the program's `evaluateGenome` returns 4334 while the
reference sum of spec section 4.2 is 238: the sixteen dominant-chord
steps hit the table cell written `-5`, which the `const byte` table
stores as 251, so the code adds 251 per step where the reference
subtracts 5. -/
theorem C1_table_narrowing_divergence :
    genomeInDomain cexGenomeC1 = true ∧
    evaluateGenome cexGenomeC1 = 4334 ∧
    specScore cexGenomeC1 = 238 ∧
    evaluateGenome cexGenomeC1 ≠ specScore cexGenomeC1 := by decide

/-- C2: the in-domain genome `g7` (note 7 everywhere) makes
`evaluateGenome` compute scale degree 7 at step 0, so the bounds-checked
7x7 indexing takes the out-of-range branch there (column index 7 is
outside the declared row), while the raw row-major read lands on the
first cell of the following row (value 10). -/
theorem C2_lookup_escapes_table :
    genomeInDomain g7 = true ∧
    chordType 0 < 7 ∧
    stepDegree g7 0 = 7 ∧
    jazzChecked (chordType 0) (stepDegree g7 0) = none ∧
    jazzAt (chordType 0) (stepDegree g7 0) = 10 := by decide

/-- C3: the source listing writes `-5` and `-10` into the dominant-chord
row, but the `const byte` table stores 251 and 246; the per-step
harmonic contribution `score += JAZZ_TABLE[2][5]` therefore adds a
strictly positive amount instead of strictly decreasing the score. -/
theorem C3_negative_cells_stored_unsigned :
    (JAZZ_TABLE_src.getD 2 []).getD 5 0 = -5 ∧
    (JAZZ_TABLE_src.getD 2 []).getD 6 0 = -10 ∧
    jazzAt 2 5 = 251 ∧
    jazzAt 2 6 = 246 ∧
    (0 : Int) < (jazzAt 2 5 : Int) ∧
    (0 : Int) < (jazzAt 2 6 : Int) := by decide

/-- C5: the raw reading 1023 is mapped to `1023 / 4 + 60 = 315`, outside
the claimed clamped range [60, 300] (there is no clamping in the code),
and the step interval is computed from that unclamped value: 47 ms
instead of the 50 ms a 300 BPM clamp would give. -/
theorem C5_bpm_exceeds_claimed_range :
    bpmFromReading 1023 = 315 ∧
    ¬ bpmFromReading 1023 ≤ 300 ∧
    stepTimeOf (bpmFromReading 1023) = 47 ∧
    stepTimeOf 300 = 50 := by decide

/-! ### Claim theorems: the wrap handler -/

/-- C4 counterexample: at a wrap with both flags latched the reinforce
transition fires but the dislike flag is not cleared, and at the very
next wrap — with no new press in between — the reset transition fires
from the stale flag.  This refutes the claim that a like-triggered wrap
clears both flags and that a reset can only come from a dislike latched
during the same traversal. -/
theorem C4_flags_not_both_cleared :
    (onWrap sBoth).snd = (true, false) ∧
    ((onWrap sBoth).fst).like = false ∧
    ((onWrap sBoth).fst).dislike = true ∧
    (onWrap ((onWrap sBoth).fst)).snd = (false, true) := by decide

/-- C4 (amended): a like-triggered wrap fires reinforce and clears only
the like flag, leaving the dislike flag as it was; a dislike-triggered
wrap fires reset and clears only the dislike flag; with neither flag
latched the state is untouched and nothing fires. -/
theorem C4_amended_flag_clearing (s : SeqState) :
    (s.like = true →
      (onWrap s).snd = (true, false) ∧
      ((onWrap s).fst).like = false ∧
      ((onWrap s).fst).dislike = s.dislike) ∧
    (s.like = false → s.dislike = true →
      (onWrap s).snd = (false, true) ∧
      ((onWrap s).fst).dislike = false ∧
      ((onWrap s).fst).like = false) ∧
    (s.like = false → s.dislike = false →
      (onWrap s).fst = s ∧ (onWrap s).snd = (false, false)) := by
  cases h1 : s.like <;> cases h2 : s.dislike <;>
    simp [onWrap, h1, h2]

/-- C4 witness: the amended statement applied at the concrete state
with both flags latched. -/
theorem C4_amended_flag_clearing_witness :
    ((onWrap sBoth).fst).like = false ∧ ((onWrap sBoth).fst).dislike = true := by
  have h := (C4_amended_flag_clearing sBoth).1 rfl
  exact ⟨h.2.1, h.2.2⟩

/-- C9: at any single wrap at most one of the two transitions fires;
with both flags latched reinforce fires and reset does not, and with
no flag latched neither fires. -/
theorem C9_at_most_one_transition (s : SeqState) :
    ¬(((onWrap s).snd).fst = true ∧ ((onWrap s).snd).snd = true) ∧
    (s.like = true ∧ s.dislike = true → (onWrap s).snd = (true, false)) ∧
    (s.like = false ∧ s.dislike = false → (onWrap s).snd = (false, false)) := by
  cases h1 : s.like <;> cases h2 : s.dislike <;>
    simp [onWrap, h1, h2]

/-- C9 witness: the theorem applied at the two concrete states with
both flags latched and with no flag latched. -/
theorem C9_at_most_one_transition_witness :
    (onWrap sBoth).snd = (true, false) ∧ (onWrap sNone).snd = (false, false) :=
  ⟨(C9_at_most_one_transition sBoth).2.1 ⟨rfl, rfl⟩,
   (C9_at_most_one_transition sNone).2.2 ⟨rfl, rfl⟩⟩

/-! ### Domain closure of the population operations -/

lemma draw_lt (r : Rng) (n : Nat) (hn : 0 < n) : (draw r n).fst < n :=
  Nat.mod_lt _ hn

lemma initGene_dom (r : Rng) : geneInDomain (initGene r).fst = true := by
  simp only [initGene, geneInDomain, Bool.and_eq_true, decide_eq_true_eq]
  exact ⟨⟨⟨draw_lt _ _ (by norm_num), draw_lt _ _ (by norm_num)⟩,
    draw_lt _ _ (by norm_num)⟩, draw_lt _ _ (by norm_num)⟩

lemma initGenome_dom : ∀ (n : Nat) (r : Rng),
    genomeInDomain (initGenome n r).fst = true
  | 0, r => rfl
  | n + 1, r => by
    simp only [initGenome, genomeInDomain, List.all_cons, Bool.and_eq_true]
    exact ⟨initGene_dom r, initGenome_dom n _⟩

lemma initPopulationAux_dom : ∀ (n : Nat) (r : Rng),
    ∀ g ∈ (initPopulationAux n r).fst, genomeInDomain g = true
  | 0, r => by simp [initPopulationAux]
  | n + 1, r => by
    intro g hg
    simp only [initPopulationAux, List.mem_cons] at hg
    rcases hg with hg | hg
    · exact hg ▸ initGenome_dom 64 r
    · exact initPopulationAux_dom n _ g hg

lemma mutField_lt (t : Nat) (r : Rng) (b c : Nat) (hb : 0 < b) (hc : c < b) :
    (mutField t r b c).fst < b := by
  unfold mutField
  split
  · exact draw_lt _ _ hb
  · exact hc

lemma mutateGene_dom (t : Nat) (r : Rng) (s : StepGene)
    (h : geneInDomain s = true) : geneInDomain (mutateGene t r s).fst = true := by
  simp only [geneInDomain, Bool.and_eq_true, decide_eq_true_eq] at h
  obtain ⟨⟨⟨h1, h2⟩, h3⟩, h4⟩ := h
  simp only [mutateGene, geneInDomain, Bool.and_eq_true, decide_eq_true_eq]
  exact ⟨⟨⟨mutField_lt _ _ _ _ (by norm_num) h1, mutField_lt _ _ _ _ (by norm_num) h2⟩,
    mutField_lt _ _ _ _ (by norm_num) h3⟩, mutField_lt _ _ _ _ (by norm_num) h4⟩

lemma mutateGenome_dom (t : Nat) : ∀ (g : Genome) (r : Rng),
    genomeInDomain g = true → genomeInDomain (mutateGenome t g r).fst = true
  | [], r, _ => rfl
  | s :: rest, r, h => by
    simp only [genomeInDomain, List.all_cons, Bool.and_eq_true] at h
    simp only [mutateGenome, genomeInDomain, List.all_cons, Bool.and_eq_true]
    exact ⟨mutateGene_dom t r s h.1, mutateGenome_dom t rest _ h.2⟩

lemma mutatePopulation_dom (t : Nat) : ∀ (pop : List Genome) (r : Rng),
    (∀ g ∈ pop, genomeInDomain g = true) →
    ∀ g ∈ (mutatePopulation t pop r).fst, genomeInDomain g = true
  | [], r, _ => by simp [mutatePopulation]
  | g0 :: gs, r, h => by
    intro g hg
    simp only [mutatePopulation, List.mem_cons] at hg
    rcases hg with hg | hg
    · exact hg ▸ mutateGenome_dom t g0 r (h g0 (List.mem_cons_self g0 gs))
    · exact mutatePopulation_dom t gs _ (fun x hx => h x (List.mem_cons_of_mem g0 hx)) g hg

/-- C7: domain closure is an invariant: every genome produced by
`initPopulation` is in-domain, and `mutatePopulation` (at any
threshold) maps an in-domain population to an in-domain population. -/
theorem C7_domain_closure :
    (∀ r : Rng, ∀ g ∈ (initPopulation r).fst, genomeInDomain g = true) ∧
    (∀ (t : Nat) (pop : List Genome) (r : Rng),
      (∀ g ∈ pop, genomeInDomain g = true) →
      ∀ g ∈ (mutatePopulation t pop r).fst, genomeInDomain g = true) :=
  ⟨fun r => initPopulationAux_dom 100 r, mutatePopulation_dom⟩

/-- C7 witness: the mutate part applied at threshold 1 with one
concrete random stream and the concrete one-genome in-domain
population; the resulting head genome is in-domain. -/
theorem C7_domain_closure_witness :
    genomeInDomain (((mutatePopulation 1 [eliteGenome] [3, 0, 5]).fst).headD zeroGenome) = true :=
  C7_domain_closure.2 1 [eliteGenome] [3, 0, 5] (by decide) _ (by decide)

/-! ### Mutation boundary behaviour -/

lemma mutField_zero (r : Rng) (b c : Nat) : (mutField 0 r b c).fst = c := by
  simp [mutField]

lemma mutateGene_zero (r : Rng) (s : StepGene) : (mutateGene 0 r s).fst = s := by
  cases s
  simp [mutateGene, mutField_zero]

lemma mutateGenome_zero : ∀ (g : Genome) (r : Rng), (mutateGenome 0 g r).fst = g
  | [], _ => rfl
  | s :: rest, r => by
    simp only [mutateGenome, List.cons.injEq]
    exact ⟨mutateGene_zero _ s, mutateGenome_zero rest _⟩

lemma mutatePopulation_zero : ∀ (pop : List Genome) (r : Rng),
    (mutatePopulation 0 pop r).fst = pop
  | [], _ => rfl
  | g :: gs, r => by
    simp only [mutatePopulation, List.cons.injEq]
    exact ⟨mutateGenome_zero g _, mutatePopulation_zero gs _⟩

lemma mutField_hundred (t : Nat) (r : Rng) (b c : Nat) (ht : t = 100) :
    mutField t r b c = freshField r b := by
  subst ht
  simp [mutField, freshField, draw_lt r 100 (by norm_num)]

lemma mutateGene_hundred (r : Rng) (s : StepGene) :
    mutateGene 100 r s = replaceGene r := by
  simp only [mutateGene, replaceGene, mutField_hundred _ _ _ _ rfl]

lemma mutateGenome_hundred : ∀ (g : Genome) (r : Rng),
    mutateGenome 100 g r = replaceGenome g r
  | [], _ => rfl
  | s :: rest, r => by
    simp only [mutateGenome, replaceGenome, mutateGene_hundred r s,
      mutateGenome_hundred rest]

lemma mutatePopulation_hundred : ∀ (pop : List Genome) (r : Rng),
    mutatePopulation 100 pop r = replaceAllFields pop r
  | [], _ => rfl
  | g :: gs, r => by
    simp only [mutatePopulation, replaceAllFields, mutateGenome_hundred g,
      mutatePopulation_hundred gs]

/-- C8: the mutation boundary.  With rate 0 (threshold `0 * 100 = 0`)
the population comes out bit-identical; with rate 1 (threshold
`1 * 100 = 100`, every Bernoulli trial succeeds) the run coincides with
`replaceAllFields`, which replaces every one of the four fields of
every gene of every genome with a fresh uniform draw from its domain. -/
theorem C8_mutation_boundary (pop : List Genome) (r : Rng) :
    (mutatePopulation 0 pop r).fst = pop ∧
    mutatePopulation 100 pop r = replaceAllFields pop r :=
  ⟨mutatePopulation_zero pop r, mutatePopulation_hundred pop r⟩

/-- C8 witness: the boundary behaviour at a concrete population and
stream. -/
theorem C8_mutation_boundary_witness :
    (mutatePopulation 0 [eliteGenome] [7, 2]).fst = [eliteGenome] ∧
    mutatePopulation 100 [eliteGenome] [7, 2] = replaceAllFields [eliteGenome] [7, 2] :=
  C8_mutation_boundary [eliteGenome] [7, 2]

/-! ### Selection correctness -/

lemma geneAt_dom : ∀ (g : Genome), genomeInDomain g = true →
    ∀ i : Nat, geneInDomain (geneAt g i) = true
  | [], _, i => by simp [geneAt, List.getD_nil]; rfl
  | a :: t, h, i => by
    simp only [genomeInDomain, List.all_cons, Bool.and_eq_true] at h
    cases i with
    | zero => simpa [geneAt, List.getD_cons_zero] using h.1
    | succ n => simpa [geneAt, List.getD_cons_succ] using geneAt_dom t h.2 n

lemma stepScore_ge (g : Genome) (hdom : genomeInDomain g = true) (i : Nat) :
    -60 ≤ stepScore g i := by
  have h1 := geneAt_dom g hdom i
  have h2 := geneAt_dom g hdom (i - 1)
  simp only [geneInDomain, Bool.and_eq_true, decide_eq_true_eq] at h1 h2
  obtain ⟨⟨⟨hn1, ho1⟩, hw1⟩, hg1⟩ := h1
  obtain ⟨⟨⟨hn2, ho2⟩, hw2⟩, hg2⟩ := h2
  have hj : (0 : Int) ≤ (jazzAt (chordType i) (stepDegree g i) : Int) :=
    Int.natCast_nonneg _
  simp only [stepScore]
  split
  · omega
  · split <;> omega

lemma foldl_stepScore_ge (g : Genome) (hdom : genomeInDomain g = true) :
    ∀ (l : List Nat) (acc : Int),
      acc - 60 * l.length ≤ l.foldl (fun a i => a + stepScore g i) acc
  | [], acc => by simp
  | i :: t, acc => by
    have ih := foldl_stepScore_ge g hdom t (acc + stepScore g i)
    have hs := stepScore_ge g hdom i
    simp only [List.foldl_cons, List.length_cons] at ih ⊢
    have : acc - 60 * ((t.length : Int) + 1) ≤ acc + stepScore g i - 60 * t.length := by
      omega
    calc acc - 60 * ((t.length : Int) + 1) ≤ acc + stepScore g i - 60 * t.length := this
      _ ≤ _ := ih

lemma evaluateGenome_ge (g : Genome) (hdom : genomeInDomain g = true) :
    -3840 ≤ evaluateGenome g := by
  have h := foldl_stepScore_ge g hdom (List.range 64) 0
  simpa [evaluateGenome, List.length_range] using h

lemma evalStep_gt (acc : Int × Genome) (g : Genome)
    (h : evaluateGenome g > acc.fst) : evalStep acc g = (evaluateGenome g, g) := by
  simp [evalStep, h]

lemma evalStep_le (acc : Int × Genome) (g : Genome)
    (h : ¬ evaluateGenome g > acc.fst) : evalStep acc g = acc := by
  simp [evalStep, h]

/-- The full behaviour of the `evaluatePopulation` scan from an
arbitrary incumbent: either no genome strictly beats the incumbent and
the fold returns it unchanged, or the fold returns the first genome
attaining the (strictly improved) maximum. -/
lemma evalFold_spec (l : List Genome) : ∀ (acc : Int × Genome),
    (List.foldl evalStep acc l = acc ∧ ∀ g ∈ l, evaluateGenome g ≤ acc.fst) ∨
    (∃ k, k < l.length ∧
      List.foldl evalStep acc l =
        (evaluateGenome (l.getD k zeroGenome), l.getD k zeroGenome) ∧
      acc.fst < evaluateGenome (l.getD k zeroGenome) ∧
      (∀ g ∈ l, evaluateGenome g ≤ evaluateGenome (l.getD k zeroGenome)) ∧
      ∀ j, j < k →
        evaluateGenome (l.getD j zeroGenome) < evaluateGenome (l.getD k zeroGenome)) := by
  induction l with
  | nil => exact fun acc => Or.inl ⟨rfl, by simp⟩
  | cons a t ih =>
    intro acc
    by_cases hca : evaluateGenome a > acc.fst
    · have hstep : List.foldl evalStep acc (a :: t) =
          List.foldl evalStep (evaluateGenome a, a) t := by
        rw [List.foldl_cons, evalStep_gt acc a hca]
      rcases ih (evaluateGenome a, a) with ⟨heq, hle⟩ | ⟨k, hk, heq, hlt, hle, hfirst⟩
      · refine Or.inr ⟨0, Nat.succ_pos _, ?_, ?_, ?_, ?_⟩ <;>
          simp only [List.getD_cons_zero]
        · exact hstep.trans heq
        · exact hca
        · intro g hg
          rcases List.mem_cons.mp hg with hg | hg
          · exact le_of_eq (congrArg evaluateGenome hg)
          · exact hle g hg
        · intro j hj0
          exact absurd hj0 (Nat.not_lt_zero j)
      · refine Or.inr ⟨k + 1, Nat.succ_lt_succ hk, ?_, ?_, ?_, ?_⟩ <;>
          simp only [List.getD_cons_succ]
        · exact hstep.trans heq
        · exact lt_trans hca hlt
        · intro g hg
          rcases List.mem_cons.mp hg with hg | hg
          · exact le_of_eq_of_le (congrArg evaluateGenome hg) (le_of_lt hlt)
          · exact hle g hg
        · intro j hjk
          cases j with
          | zero => simp only [List.getD_cons_zero]; exact hlt
          | succ j0 =>
            simp only [List.getD_cons_succ]
            exact hfirst j0 (Nat.lt_of_succ_lt_succ hjk)
    · have hstep : List.foldl evalStep acc (a :: t) = List.foldl evalStep acc t := by
        rw [List.foldl_cons, evalStep_le acc a hca]
      rcases ih acc with ⟨heq, hle⟩ | ⟨k, hk, heq, hlt, hle, hfirst⟩
      · refine Or.inl ⟨hstep.trans heq, ?_⟩
        intro g hg
        rcases List.mem_cons.mp hg with hg | hg
        · exact le_of_eq_of_le (congrArg evaluateGenome hg) (le_of_not_lt hca)
        · exact hle g hg
      · refine Or.inr ⟨k + 1, Nat.succ_lt_succ hk, ?_, ?_, ?_, ?_⟩ <;>
          simp only [List.getD_cons_succ]
        · exact hstep.trans heq
        · exact hlt
        · intro g hg
          rcases List.mem_cons.mp hg with hg | hg
          · exact le_of_eq_of_le (congrArg evaluateGenome hg)
              (le_trans (le_of_not_lt hca) (le_of_lt hlt))
          · exact hle g hg
        · intro j hjk
          cases j with
          | zero =>
            simp only [List.getD_cons_zero]
            exact lt_of_le_of_lt (le_of_not_lt hca) hlt
          | succ j0 =>
            simp only [List.getD_cons_succ]
            exact hfirst j0 (Nat.lt_of_succ_lt_succ hjk)

/-- C6: after `evaluatePopulation` on a population of 100 in-domain
genomes, `best_score` is an upper bound of every genome's score, and
`best_genome` is the first population entry attaining it: every
strictly earlier entry scores strictly lower.  (The sentinel `-9999`
never survives: every in-domain genome scores at least `-3840`.) -/
theorem C6_best_is_first_max (pop : List Genome) (hlen : pop.length = 100)
    (hdom : ∀ g ∈ pop, genomeInDomain g = true) :
    (∀ g ∈ pop, evaluateGenome g ≤ (evaluatePopulation pop).fst) ∧
    ∃ k, k < pop.length ∧
      (evaluatePopulation pop).snd = pop.getD k zeroGenome ∧
      evaluateGenome (pop.getD k zeroGenome) = (evaluatePopulation pop).fst ∧
      ∀ j, j < k →
        evaluateGenome (pop.getD j zeroGenome) < (evaluatePopulation pop).fst := by
  rcases evalFold_spec pop ((-9999 : Int), zeroGenome) with
    ⟨heq, hle⟩ | ⟨k, hk, heq, hgt, hle, hfirst⟩
  · exfalso
    have hpos : 0 < pop.length := by omega
    have hmem : pop.getD 0 zeroGenome ∈ pop := by
      cases pop with
      | nil => simp at hpos
      | cons a t =>
        simp only [List.getD_cons_zero]
        exact List.mem_cons_self a t
    have h1 : evaluateGenome (pop.getD 0 zeroGenome) ≤ -9999 := hle _ hmem
    have h2 := evaluateGenome_ge _ (hdom _ hmem)
    omega
  · have hfst : (evaluatePopulation pop).fst = evaluateGenome (pop.getD k zeroGenome) := by
      simp only [evaluatePopulation]
      rw [heq]
    have hsnd : (evaluatePopulation pop).snd = pop.getD k zeroGenome := by
      simp only [evaluatePopulation]
      rw [heq]
    refine ⟨fun g hg => le_of_le_of_eq (hle g hg) hfst.symm, k, hk, hsnd,
      hfst.symm, ?_⟩
    intro j hjk
    exact lt_of_lt_of_eq (hfirst j hjk) hfst.symm

/-- C6 witness: the theorem applied at the concrete population of 100
zero genomes; the returned genome attains the returned score. -/
theorem C6_best_is_first_max_witness :
    evaluateGenome ((evaluatePopulation popW).snd) = (evaluatePopulation popW).fst := by
  have hlen : popW.length = 100 := by
    simp [popW, List.length_replicate]
  have hdom : ∀ g ∈ popW, genomeInDomain g = true := by
    intro g hg
    have hg2 : g ∈ List.replicate 100 zeroGenome := hg
    rw [List.eq_of_mem_replicate hg2]
    decide
  obtain ⟨-, k, hk, hb, hs, -⟩ := C6_best_is_first_max popW hlen hdom
  rw [hb]
  exact hs

/-! ### Loss of the champion across a reinforce step -/

lemma foldl_evalStep_const (g : Genome) : ∀ (n : Nat) (acc : Int × Genome),
    ¬ evaluateGenome g > acc.fst →
    List.foldl evalStep acc (List.replicate n g) = acc
  | 0, _, _ => rfl
  | n + 1, acc, h => by
    rw [List.replicate_succ, List.foldl_cons, evalStep_le acc g h]
    exact foldl_evalStep_const g n acc h

lemma evalPop_replicate (g : Genome) (n : Nat) (hn : 0 < n)
    (h : evaluateGenome g > -9999) :
    evaluatePopulation (List.replicate n g) = (evaluateGenome g, g) := by
  cases n with
  | zero => exact absurd hn (lt_irrefl 0)
  | succ m =>
    simp only [evaluatePopulation, List.replicate_succ, List.foldl_cons]
    rw [evalStep_gt ((-9999 : Int), zeroGenome) g h]
    exact foldl_evalStep_const g m _ (lt_irrefl _)

lemma mutField_one_empty (b c : Nat) : mutField 1 [] b c = (0, []) := by
  simp [mutField, draw]

lemma mutateGene_one_empty (s : StepGene) : mutateGene 1 [] s = (zeroGene, []) := by
  simp [mutateGene, mutField_one_empty, zeroGene]

lemma mutateGenome_one_empty : ∀ (g : Genome),
    mutateGenome 1 g [] = (List.replicate g.length zeroGene, [])
  | [] => rfl
  | s :: rest => by
    simp only [mutateGenome, mutateGene_one_empty s, mutateGenome_one_empty rest,
      List.length_cons, List.replicate_succ]

lemma mutatePopulation_one_empty : ∀ (pop : List Genome),
    mutatePopulation 1 pop [] =
      (pop.map (fun g => List.replicate g.length zeroGene), [])
  | [] => rfl
  | g :: gs => by
    simp only [mutatePopulation, mutateGenome_one_empty g,
      mutatePopulation_one_empty gs, List.map_cons]

/-- C10: reinforcing does not protect the champion.  Starting from the
population of 100 copies of `eliteGenome` (best score 4176), one
mutate-then-evaluate pass at the deployed rate, under the random
stream that redraws every field as 0, leaves a population whose best
score is 3920 — strictly below the previous best, because the previous
best genome is neither shielded from mutation nor reinserted. -/
theorem C10_no_elitism_regression :
    (evaluatePopulation elitePop).fst = 4176 ∧
    (evaluatePopulation ((mutatePopulation 1 elitePop []).fst)).fst = 3920 ∧
    (evaluatePopulation ((mutatePopulation 1 elitePop []).fst)).fst <
      (evaluatePopulation elitePop).fst := by
  have h1 : evaluateGenome eliteGenome = 4176 := by decide
  have h2 : evaluateGenome zeroGenome = 3920 := by decide
  have e1 : evaluatePopulation elitePop = (evaluateGenome eliteGenome, eliteGenome) :=
    evalPop_replicate eliteGenome 100 (Nat.succ_pos _) (by rw [h1]; norm_num)
  have hmut : (mutatePopulation 1 elitePop []).fst = List.replicate 100 zeroGenome := by
    rw [mutatePopulation_one_empty]
    simp [elitePop, eliteGenome, zeroGenome, List.map_replicate]
  have e2 : evaluatePopulation ((mutatePopulation 1 elitePop []).fst) =
      (evaluateGenome zeroGenome, zeroGenome) := by
    rw [hmut]
    exact evalPop_replicate zeroGenome 100 (Nat.succ_pos _) (by rw [h2]; norm_num)
  have a1 : (evaluatePopulation elitePop).fst = 4176 := (congrArg Prod.fst e1).trans h1
  have a2 : (evaluatePopulation ((mutatePopulation 1 elitePop []).fst)).fst = 3920 :=
    (congrArg Prod.fst e2).trans h2
  exact ⟨a1, a2, by rw [a1, a2]; norm_num⟩
